import Mathlib

set_option linter.unusedSectionVars false

/-!
Verification of the gesture-to-transform engine of the react-zoom-viewer
repository against its natural-language specification.

The TypeScript sources are shallowly embedded over an arbitrary linear
ordered field `α` (instantiated at `ℚ` or `ℝ` in concrete statements);
JavaScript numbers are idealised as exact field elements.  The
transcendental library functions `Math.sqrt`, `Math.atan2`, `Math.cos`
and `Math.sin` are abstracted as explicit function or value parameters
of the embedded definitions; the `ℝ`-level theorems instantiate them
with `Real.sqrt`, `jsAtan2Deg`, `Real.cos` and `Real.sin`.
-/

namespace ReactZoomViewer

variable {α : Type} [LinearOrderedField α] [FloorRing α]

/-- Model of JavaScript `Math.round`: round half towards positive
infinity, i.e. `Math.round(x) = floor(x + 0.5)`. -/
def jsRound (x : α) : ℤ := ⌊x + 1/2⌋

/-- Model of JavaScript `Number(x.toFixed(2))`: round to the nearest
hundredth, halves away from zero.  (No theorem in this file exercises an
exact tie, so the tie-breaking choice is immaterial.) -/
def jsToFixed2 (x : α) : α :=
  if x < 0 then -((jsRound (-x * 100) : α) / 100) else (jsRound (x * 100) : α) / 100

/-- Model of JavaScript `Math.trunc`: round towards zero. -/
def jsTrunc (x : α) : ℤ := if x < 0 then -⌊-x⌋ else ⌊x⌋

/-- A recorded pointer sample, `{x, y, timeStamp}` in `useSwipe`. -/
structure SwipePos (α : Type) where
  x : α
  y : α
  timeStamp : α

/-- The `direction` field of the swiper matrix in `useSwipe`. -/
inductive SwipeDirection where
  | none
  | left
  | right
  | up
  | down
deriving DecidableEq

/-- The `directionType` prop of `useSwipe`. -/
inductive DirectionType where
  | horizontal
  | vertical
deriving DecidableEq

/-- The mutable `swiperMatrix` record of `useSwipe`. -/
structure SwiperMatrix (α : Type) where
  startX : α
  startY : α
  startTimeStamp : α
  distanceX : α
  distanceY : α
  direction : SwipeDirection
  acceleration : α
  positions : List (SwipePos α)
  force : α
  directionAngle : α

/-- Source `getDirection` of `useSwipe`: sign of the dominant axis for
the configured gesture axis. -/
def getDirection (directionType : DirectionType) (distanceX distanceY : α) :
    SwipeDirection :=
  match directionType with
  | DirectionType.horizontal =>
      if distanceX = 0 then SwipeDirection.none
      else if distanceX < 0 then SwipeDirection.left
      else SwipeDirection.right
  | DirectionType.vertical =>
      if distanceY = 0 then SwipeDirection.none
      else if distanceY < 0 then SwipeDirection.up
      else SwipeDirection.down

/-- Per-axis displacement `dx` between two consecutive samples. -/
def stepDx (pq : SwipePos α × SwipePos α) : α := pq.2.x - pq.1.x

/-- Per-axis displacement `dy` between two consecutive samples. -/
def stepDy (pq : SwipePos α × SwipePos α) : α := pq.2.y - pq.1.y

/-- Elapsed time `dt` between two consecutive samples. -/
def stepDt (pq : SwipePos α × SwipePos α) : α :=
  pq.2.timeStamp - pq.1.timeStamp

/-- Planar (Euclidean) displacement `Math.sqrt(dx*dx + dy*dy)` between
two consecutive samples; `sqrt` abstracts `Math.sqrt`. -/
def stepDist (sqrt : α → α) (pq : SwipePos α × SwipePos α) : α :=
  sqrt (stepDx pq * stepDx pq + stepDy pq * stepDy pq)

/-- Planar speed of a consecutive pair: `dt === 0 ? 0 : dist / dt`, as in
`calculateForceAndDirection`. -/
def stepSpeed (sqrt : α → α) (pq : SwipePos α × SwipePos α) : α :=
  if stepDt pq = 0 then 0 else stepDist sqrt pq / stepDt pq

/-- The list of consecutive (earlier, later) sample pairs of a position
list. -/
def pairSteps (ps : List (SwipePos α)) : List (SwipePos α × SwipePos α) :=
  ps.zip ps.tail

/-- The first `for` loop of `calculateForceAndDirection`, accumulating
`(force, totalDx, totalDy)` over the given consecutive pairs. -/
def forceLoop (sqrt : α → α) (pairs : List (SwipePos α × SwipePos α)) :
    α × α × α :=
  pairs.foldl
    (fun acc pq =>
      (acc.1 + stepSpeed sqrt pq, acc.2.1 + stepDx pq, acc.2.2 + stepDy pq))
    (0, 0, 0)

/-- The second `for` loop of `calculateForceAndDirection`: walk the given
pairs (latest first) accumulating displacement and elapsed time and stop
(`break`) as soon as accumulated displacement exceeds
`MIN_DISPLACEMENT = 10` while accumulated time stays under
`MIN_TOTAL_TIME = 100`; returns `true` exactly when the loop sets
`isForceZero = false`. -/
def lastWindowCheck (sqrt : α → α) :
    α → α → List (SwipePos α × SwipePos α) → Bool
  | _, _, [] => false
  | accDisp, accTime, pq :: rest =>
      if 10 < accDisp + stepDist sqrt pq ∧ accTime + stepDt pq < 100 then true
      else lastWindowCheck sqrt (accDisp + stepDist sqrt pq)
        (accTime + stepDt pq) rest

/-- The pairs inspected by the second loop of
`calculateForceAndDirection`, latest pair first: the loop runs
`i = 1 .. min(LAST_POSITION_COUNT, positions.length - 1) - 1` over the
pairs `(positions[n-i], positions[n-1-i])`, i.e. the consecutive pairs
of the last `min(10, n - 1)` samples, reversed. -/
def lastPairsRev (ps : List (SwipePos α)) :
    List (SwipePos α × SwipePos α) :=
  (pairSteps (ps.drop (ps.length - min 10 (ps.length - 1)))).reverse

/-- Source `calculateForceAndDirection` of `useSwipe`, returning
`(force, directionAngle)`.  `sqrt` abstracts `Math.sqrt`; `atan2deg y x`
abstracts `Math.atan2(y, x) * (180 / Math.PI)` (the source multiplies by
`180 / Math.PI` at the single call site of `Math.atan2`).  The first
loop of the source runs `i = 1` while `i < relevantPositions.length - 1`
over pairs `(i-1, i)`, i.e. over all consecutive pairs of the trailing
10-sample window except the final pair, hence `pairSteps` of
`relevant.dropLast`.  The flag `isForceZero` of the source is the
negation of `lastWindowCheck`. -/
def calculateForceAndDirection (sqrt : α → α) (atan2deg : α → α → α)
    (positions : List (SwipePos α)) : α × α :=
  let relevant := positions.drop (positions.length - 10)
  let acc := forceLoop sqrt (pairSteps relevant.dropLast)
  let angle := atan2deg acc.2.2 acc.2.1
  let force := if lastWindowCheck sqrt 0 0 (lastPairsRev positions)
    then acc.1 else 0
  (min force 7, (jsRound (angle / 15) : α) * 15)

/-- The gesture state of `useSwipe`: the `isSwiping` ref and the
`swiperMatrix` ref. -/
structure SwipeState (α : Type) where
  isSwiping : Bool
  matrix : SwiperMatrix α

/-- Initial value of the `swiperMatrix` ref in `useSwipe`. -/
def initialSwiperMatrix : SwiperMatrix α :=
  { startX := 0, startY := 0, startTimeStamp := 0, distanceX := 0,
    distanceY := 0, direction := SwipeDirection.none, acceleration := 0,
    positions := [{ x := 0, y := 0, timeStamp := 0 }], force := 0,
    directionAngle := 0 }

/-- Initial gesture state: `isSwiping` starts `false`. -/
def initialSwipeState : SwipeState α :=
  { isSwiping := false, matrix := initialSwiperMatrix }

/-- Source `handleStart` of `useSwipe` (state transition and the
argument passed to the `onStart` callback): set `isSwiping`, capture the
origin, reset the position list to the single initiating sample. -/
def handleStart (st : SwipeState α) (e : SwipePos α) :
    SwipeState α × SwiperMatrix α :=
  let m := { st.matrix with
    startX := e.x, startY := e.y, startTimeStamp := e.timeStamp,
    positions := [e] }
  ({ isSwiping := true, matrix := m }, m)

/-- Source `handleMove` of `useSwipe`: a move with no active gesture
(`!isSwiping.current`) returns immediately; otherwise recompute the
distances and direction, append the sample, and invoke `onMove` (the
`Option` component is the argument of that callback, `none` when it is
not invoked). -/
def handleMove (directionType : DirectionType) (st : SwipeState α)
    (e : SwipePos α) : SwipeState α × Option (SwiperMatrix α) :=
  if st.isSwiping = false then (st, none)
  else
    let dX := e.x - st.matrix.startX
    let dY := e.y - st.matrix.startY
    let m := { st.matrix with
      distanceX := dX, distanceY := dY,
      direction := getDirection directionType dX dY,
      positions := st.matrix.positions ++ [e] }
    ({ st with matrix := m }, some m)

/-- Source `handleEnd` of `useSwipe`: clear `isSwiping`, recompute the
distances and direction, append the release sample, store
`calculateForceAndDirection` of the full history, and invoke
`onEnd(matrix, overThreshold)` where `overThreshold` states whether the
release distance along the configured axis strictly exceeds the
threshold (in which case `acceleration` is also updated). -/
def handleEnd (directionType : DirectionType) (threshold : α)
    (sqrt : α → α) (atan2deg : α → α → α) (st : SwipeState α)
    (e : SwipePos α) : SwipeState α × SwiperMatrix α × Bool :=
  let dX := e.x - st.matrix.startX
  let dY := e.y - st.matrix.startY
  let positions := st.matrix.positions ++ [e]
  let fd := calculateForceAndDirection sqrt atan2deg positions
  let distance := match directionType with
    | DirectionType.horizontal => dX
    | DirectionType.vertical => dY
  let m0 := { st.matrix with
    distanceX := dX, distanceY := dY,
    direction := getDirection directionType dX dY,
    positions := positions, force := fd.1, directionAngle := fd.2 }
  if threshold < |distance| then
    let m := { m0 with
      acceleration := |distance / (e.timeStamp - st.matrix.startTimeStamp)| }
    ({ isSwiping := false, matrix := m }, m, true)
  else
    ({ isSwiping := false, matrix := m0 }, m0, false)

/-- A width/height rectangle as returned by `getBoundingClientRect`. -/
structure Rect (α : Type) where
  width : α
  height : α

/-- The result record of `getNextPosition` in `ZoomViewer`. -/
structure NextPosition (α : Type) where
  nextX : α
  nextY : α
  isOverBounds : Bool

/-- One axis of the bounds resolver `getNextPosition`: the source's
sequential mutation of `nextX` (or `nextY`) and `isOverBounds` for a
single axis, returned as a value/flag pair.  The outer branch is the
"content at least as large as the viewport" case, whose two edge checks
read the incoming candidate; the inner branch is the "content smaller
than the viewport" case, whose second check reads the already-clamped
value.  The source's x block and y block are verbatim instances of this
function. -/
def axisClamp (viewerExtent targetExtent inBoundsOffset candidate : α) :
    α × Bool :=
  if viewerExtent ≤ targetExtent then
    let a := if inBoundsOffset < candidate then ((0 : α), true)
      else (candidate, false)
    if candidate + targetExtent < viewerExtent - inBoundsOffset then
      (viewerExtent - targetExtent, true)
    else a
  else
    let a := if candidate < 0 then ((0 : α), true) else (candidate, false)
    if viewerExtent < a.1 + targetExtent then
      (viewerExtent - targetExtent, true)
    else a

/-- Source `getNextPosition` of `ZoomViewer` (the bounds resolver).  In
the branch where the scaled content meets or exceeds the viewport on
both axes, the source overwrites both the corrected values and the flag
from the four precomputed edge checks (which read the incoming
candidate), falling back to the per-axis mutated value. -/
def getNextPosition (isInBounds : Bool) (viewerRect targetRect : Rect α)
    (x y inBoundsOffset zoomRatio : α) : NextPosition α :=
  let targetWidth := targetRect.width * zoomRatio
  let targetHeight := targetRect.height * zoomRatio
  if isInBounds then
    let xr := axisClamp viewerRect.width targetWidth inBoundsOffset x
    let yr := axisClamp viewerRect.height targetHeight inBoundsOffset y
    if viewerRect.width ≤ targetWidth ∧ viewerRect.height ≤ targetHeight then
      { nextX :=
          if inBoundsOffset < x then 0
          else if x + targetWidth < viewerRect.width - inBoundsOffset then
            viewerRect.width - targetWidth
          else xr.1,
        nextY :=
          if inBoundsOffset < y then 0
          else if y + targetHeight < viewerRect.height - inBoundsOffset then
            viewerRect.height - targetHeight
          else yr.1,
        isOverBounds :=
          decide (inBoundsOffset < x) ||
          decide (x + targetWidth < viewerRect.width - inBoundsOffset) ||
          decide (inBoundsOffset < y) ||
          decide (y + targetHeight < viewerRect.height - inBoundsOffset) }
    else
      { nextX := xr.1, nextY := yr.1, isOverBounds := xr.2 || yr.2 }
  else
    { nextX := x, nextY := y, isOverBounds := false }

/-- The environment `ZoomViewer` reads at a pan end: the `isInBounds`
prop, the two bounding rectangles, and the element's current transform
position (`getPrevTransformedPosition`). -/
structure ViewerEnv (α : Type) where
  isInBounds : Bool
  viewerRect : Rect α
  targetRect : Rect α
  prevX : α
  prevY : α

/-- What `onPanEnd` of `ZoomViewer` does with a release: either settle
the element at a bounds-checked position (`setElementEndPosition`), or
start the momentum continuation `moveElementAfterPanEnd` with the
computed force and direction angle. -/
inductive PanEndAction (α : Type) where
  | settle (x y : α)
  | momentum (force directionAngle : α)

/-- Source `onPanEnd` of `ZoomViewer`: run the bounds resolver on the
current position with `inBoundsOffset = 30`; if it reports out of bounds
or the computed force is `0`, settle; otherwise apply momentum. -/
def onPanEnd (env : ViewerEnv α) (panMatrix : SwiperMatrix α) :
    PanEndAction α :=
  let r := getNextPosition env.isInBounds env.viewerRect env.targetRect
    env.prevX env.prevY 30 1
  if r.isOverBounds = true ∨ panMatrix.force = 0 then
    PanEndAction.settle r.nextX r.nextY
  else
    PanEndAction.momentum panMatrix.force panMatrix.directionAngle

/-- The composed release pipeline: `useSwipe.handleEnd` invokes
`onEnd(matrix, overThreshold)`; `useGesture.onEnd` forwards only the
matrix to `onPanEnd` (the `overThreshold` boolean is dropped there);
`ZoomViewer.onPanEnd` decides between settling and momentum. -/
def releaseGesture (directionType : DirectionType) (threshold : α)
    (sqrt : α → α) (atan2deg : α → α → α) (env : ViewerEnv α)
    (st : SwipeState α) (e : SwipePos α) : PanEndAction α :=
  onPanEnd env (handleEnd directionType threshold sqrt atan2deg st e).2.1

/-- Whether a pan-end action is the momentum continuation. -/
def appliesMomentum : PanEndAction α → Bool
  | PanEndAction.settle _ _ => false
  | PanEndAction.momentum _ _ => true

/-- The observable outcome of one `animate` tick of
`moveElementAfterPanEnd`: the arguments passed to `setTranslate`, the
decayed force, and the argument of the completion callback `onEnd`
(`none` when the callback is not invoked). -/
structure MomentumStep (α : Type) where
  setX : α
  setY : α
  forceAfter : α
  onEndCall : Option (α × α)

/-- Source `moveElementAfterPanEnd` of `ZoomViewer`, one `animate` tick
(the rescheduling of further ticks is commented out in the source, so
the continuation performs exactly this single step).  `cosDir`/`sinDir`
abstract `Math.cos(directionRadian)`/`Math.sin(directionRadian)`.  The
tick translates by `force * scalingFactor` along the release direction,
bounds-checks the candidate with `inBoundsOffset = max(initialForce * 3,
10)`, always applies the translation, decays the force by `0.95`, and
invokes `onEnd` exactly when out of bounds or the decayed force is not
above `0.3`. -/
def moveElementAfterPanEndStep (env : ViewerEnv α) (cosDir sinDir : α)
    (initialForce prevScale prevX prevY : α) : MomentumStep α :=
  let scalingFactor : α := 3 * ((jsRound (prevScale * (3/10)) : α) + 1)
  let distance := initialForce * scalingFactor
  let dx := distance * cosDir
  let dy := distance * sinDir
  let nextX := prevX + dx
  let nextY := prevY + dy
  let r := getNextPosition env.isInBounds env.viewerRect env.targetRect
    nextX nextY (max (initialForce * 3) 10) 1
  let force := initialForce * (95/100)
  if r.isOverBounds then
    { setX := nextX, setY := nextY, forceAfter := force,
      onEndCall := some (nextX, nextY) }
  else if 3/10 < force then
    { setX := nextX, setY := nextY, forceAfter := force, onEndCall := none }
  else
    { setX := nextX, setY := nextY, forceAfter := force,
      onEndCall := some (nextX, nextY) }

/-- The fit-on-init scale selection of `initTargetElement` in
`ZoomViewer`: `targetRatio > viewerRatio` selects the width ratio,
otherwise the height ratio. -/
def initFitScale (viewerRect targetRect : Rect α) : α :=
  if viewerRect.width / viewerRect.height <
      targetRect.width / targetRect.height then
    viewerRect.width / targetRect.width
  else
    viewerRect.height / targetRect.height

/-- Source constant `MIN_ZOOM_RATIO = 0.5` of `ZoomViewer`. -/
def minScaleFloor : α := 1/2

/-- The `target` argument of `animateTransform`: optional target scale
and optional target position. -/
structure AnimateTarget (α : Type) where
  scale : Option α
  position : Option (α × α)

/-- What one `animate` tick of `animateTransform` writes into the
element's transform: the scale component (as a `toFixed(2)` value) when
a scale is being animated, and the truncated translation when a
position is being animated; a component not being animated is left
untouched (`none`). -/
structure WrittenTransform (α : Type) where
  scale : Option α
  translate : Option (ℤ × ℤ)

/-- Source `animateTransform` of `ZoomViewer`, one `animate` tick at a
given elapsed time: `progress = duration === 0 ? 1 :
min(elapsed/duration, 1)`, the interpolated scale is floor-clamped at
`MIN_ZOOM_RATIO` before being written with `toFixed(2)`, and the
interpolated translation is truncated. -/
def animateTransformTick (target : AnimateTarget α)
    (duration elapsedTime prevScale prevX prevY : α) : WrittenTransform α :=
  let progress := if duration = 0 then 1 else min (elapsedTime / duration) 1
  let nextScale := max
    (match target.scale with
      | some s => prevScale + (s - prevScale) * progress
      | none => 0)
    minScaleFloor
  let nextX := match target.position with
    | some p => prevX + (p.1 - prevX) * progress
    | none => 0
  let nextY := match target.position with
    | some p => prevY + (p.2 - prevY) * progress
    | none => 0
  { scale := match target.scale with
      | some _ => some (jsToFixed2 nextScale)
      | none => none,
    translate := match target.position with
      | some _ => some (jsTrunc nextX, jsTrunc nextY)
      | none => none }

/-- The payload of the `paper-zoom` broadcast event. -/
structure ZoomEventDetail (α : Type) where
  zoomRatio : α
  prevZoomRatio : α

/-- Source `zoom` of `useZoomController`: step the ratio by
`± zoomRatioStep`, clamp at `minZoomRatio` from below, round to two
decimal places, store the result, and dispatch exactly one
`paper-zoom` event carrying `{zoomRatio, prevZoomRatio}`.  Returns the
new stored ratio and the list of dispatched events. -/
def zoom (zoomRatioStep minZoomRatio : α) (dirIn : Bool)
    (prevZoomRatio : α) : α × List (ZoomEventDetail α) :=
  let nextZoomRatio := jsToFixed2
    (max (prevZoomRatio + zoomRatioStep * (if dirIn then 1 else -1))
      minZoomRatio)
  (nextZoomRatio,
    [{ zoomRatio := nextZoomRatio, prevZoomRatio := prevZoomRatio }])

/-- Iterated `zoomIn`: the stored ratio after `n` successive `zoomIn`
calls starting from `r`. -/
def zoomInIter (zoomRatioStep minZoomRatio : α) : ℕ → α → α
  | 0, r => r
  | n + 1, r =>
      zoomInIter zoomRatioStep minZoomRatio n
        (zoom zoomRatioStep minZoomRatio true r).1

/-- Source `setZoomRatio` of `useZoomController`: overwrite the stored
ratio with the argument; no event is dispatched. -/
def setZoomRatio (zoomRatio : α) (_prevZoomRatio : α) :
    α × List (ZoomEventDetail α) :=
  (zoomRatio, [])

/-- Source `getZoomRatio` of `useZoomController`: read the stored
ratio. -/
def getZoomRatio (storedRatio : α) : α := storedRatio

/-- Model of JavaScript `Math.atan2` over the reals (signed zeros are
not representable in `ℝ`; the `y = 0, x < 0` case takes the `+π`
branch, matching `atan2(+0, x)`). -/
noncomputable def jsAtan2 (y x : ℝ) : ℝ :=
  if 0 < x then Real.arctan (y / x)
  else if x < 0 then
    (if 0 ≤ y then Real.arctan (y / x) + Real.pi
     else Real.arctan (y / x) - Real.pi)
  else if 0 < y then Real.pi / 2
  else if y < 0 then -(Real.pi / 2)
  else 0

/-- The composition `Math.atan2(y, x) * (180 / Math.PI)` used by
`calculateForceAndDirection`. -/
noncomputable def jsAtan2Deg (y x : ℝ) : ℝ :=
  jsAtan2 y x * (180 / Real.pi)

/-- The spec's trailing window for the force estimator: "at most the
last 10 recorded samples". -/
def specWindow (ps : List (SwipePos α)) : List (SwipePos α) :=
  ps.drop (ps.length - 10)

/-- The consecutive pairs of the spec's trailing window, walked
backward (latest pair first). -/
def specBackPairs (ps : List (SwipePos α)) :
    List (SwipePos α × SwipePos α) :=
  (pairSteps (specWindow ps)).reverse

/-- Claim C4's genuine-momentum condition, as the claim words it:
walking backward through the last up-to-10 samples, at some point the
accumulated displacement exceeds 10 px while the accumulated time stays
under 100 ms. -/
def specMomentumClaim (sqrt : α → α) (ps : List (SwipePos α)) : Prop :=
  ∃ k ∈ Finset.Icc 1 (specBackPairs ps).length,
    10 < (((specBackPairs ps).take k).map (stepDist sqrt)).sum ∧
    (((specBackPairs ps).take k).map stepDt).sum < 100

instance specMomentumClaimDecidable (sqrt : α → α)
    (ps : List (SwipePos α)) : Decidable (specMomentumClaim sqrt ps) := by
  unfold specMomentumClaim
  infer_instance

/-- The force as claim C4 describes it: the planar speeds of every
consecutive pair of the last up-to-10 samples summed, clamped at 7, and
forced to 0 without genuine terminal momentum. -/
def refForceClaim (sqrt : α → α) (ps : List (SwipePos α)) : α :=
  if specMomentumClaim sqrt ps then
    min (((pairSteps (specWindow ps)).map (stepSpeed sqrt)).sum) 7
  else 0

/-- The genuine-momentum condition as the code actually walks it: the
same accumulated-displacement/time test, but over the consecutive pairs
of only the last `min(10, n - 1)` samples (`lastPairsRev`), so over one
pair fewer than the claim's window when the history is short. -/
def amendedMomentum (sqrt : α → α) (ps : List (SwipePos α)) : Prop :=
  ∃ k ∈ Finset.Icc 1 (lastPairsRev ps).length,
    10 < (((lastPairsRev ps).take k).map (stepDist sqrt)).sum ∧
    (((lastPairsRev ps).take k).map stepDt).sum < 100

instance amendedMomentumDecidable (sqrt : α → α)
    (ps : List (SwipePos α)) : Decidable (amendedMomentum sqrt ps) := by
  unfold amendedMomentum
  infer_instance

/-- The force as the code computes it, in the claim's vocabulary: the
planar speeds of every consecutive pair of the trailing window
excluding the final pair summed, clamped at 7, and forced to 0 unless
`amendedMomentum` holds. -/
def refForceAmended (sqrt : α → α) (ps : List (SwipePos α)) : α :=
  if amendedMomentum sqrt ps then
    min (((pairSteps (specWindow ps).dropLast).map (stepSpeed sqrt)).sum) 7
  else 0

/-- The accumulating force loop computes the sum of the pairwise
speeds. -/
theorem forceLoop_fst (sqrt : α → α)
    (pairs : List (SwipePos α × SwipePos α)) :
    (forceLoop sqrt pairs).1 = (pairs.map (stepSpeed sqrt)).sum := by
  have go : ∀ (l : List (SwipePos α × SwipePos α)) (a : α × α × α),
      (List.foldl
        (fun acc pq =>
          (acc.1 + stepSpeed sqrt pq, acc.2.1 + stepDx pq,
            acc.2.2 + stepDy pq)) a l).1 =
        a.1 + (l.map (stepSpeed sqrt)).sum := by
    intro l
    induction l with
    | nil => intro a; simp
    | cons pq rest ih =>
        intro a
        simp only [List.foldl_cons, List.map_cons, List.sum_cons, ih]
        ring
  simpa using go pairs (0, 0, 0)

/-- The break-early backward walk of the source succeeds exactly when
some nonempty prefix of the walked pairs accumulates more than 10 px of
displacement in under 100 ms. -/
theorem lastWindowCheck_iff (sqrt : α → α) :
    ∀ (l : List (SwipePos α × SwipePos α)) (d t : α),
      lastWindowCheck sqrt d t l = true ↔
        ∃ k ∈ Finset.Icc 1 l.length,
          10 < d + ((l.take k).map (stepDist sqrt)).sum ∧
          t + ((l.take k).map stepDt).sum < 100 := by
  intro l
  induction l with
  | nil =>
      intro d t
      simp [lastWindowCheck]
  | cons pq rest ih =>
      intro d t
      rw [lastWindowCheck]
      by_cases hC : 10 < d + stepDist sqrt pq ∧ t + stepDt pq < 100
      · rw [if_pos hC]
        simp only [true_iff]
        refine ⟨1, ?_, ?_, ?_⟩
        · simp [Finset.mem_Icc]
        · simpa using hC.1
        · simpa using hC.2
      · rw [if_neg hC, ih]
        constructor
        · rintro ⟨k, hk, h1, h2⟩
          rw [Finset.mem_Icc] at hk
          refine ⟨k + 1, ?_, ?_, ?_⟩
          · rw [Finset.mem_Icc]
            simp only [List.length_cons]
            omega
          · simpa [add_assoc] using h1
          · simpa [add_assoc] using h2
        · rintro ⟨k, hk, h1, h2⟩
          rw [Finset.mem_Icc] at hk
          simp only [List.length_cons] at hk
          match k, hk with
          | 1, _ =>
              exact absurd ⟨by simpa using h1, by simpa using h2⟩ hC
          | k + 2, hk =>
              refine ⟨k + 1, ?_, ?_, ?_⟩
              · rw [Finset.mem_Icc]
                omega
              · simpa [add_assoc] using h1
              · simpa [add_assoc] using h2

/-- Square root of a concrete perfect square: 400. -/
theorem real_sqrt_400 : Real.sqrt 400 = 20 := by
  rw [show (400 : ℝ) = 20 ^ 2 by norm_num, Real.sqrt_sq (by norm_num)]

/-- Square root of a concrete perfect square: 10000. -/
theorem real_sqrt_10000 : Real.sqrt 10000 = 100 := by
  rw [show (10000 : ℝ) = 100 ^ 2 by norm_num, Real.sqrt_sq (by norm_num)]

/-- A two-sample history that separates the claim's force definition
from the code: one fast 20 px step recorded directly before release. -/
def cexShortHistory : List (SwipePos ℝ) :=
  [{ x := 0, y := 0, timeStamp := 0 }, { x := 20, y := 0, timeStamp := 10 }]

/-- Claim C4, counterexample: on a history of two samples 20 px and
10 ms apart, the code's force loop (which skips the final consecutive
pair) and its backward walk (which covers only the last
`min(10, n - 1)` samples) both see no pair at all, so the code returns
force 0, while the claim's reference definition sums the speed of every
consecutive pair of the trailing window and finds genuine momentum,
returning 2. -/
theorem C4_force_reference_counterexample :
    (calculateForceAndDirection Real.sqrt jsAtan2Deg cexShortHistory).1 ≠
      refForceClaim Real.sqrt cexShortHistory := by
  have hcode :
      (calculateForceAndDirection Real.sqrt jsAtan2Deg cexShortHistory).1
        = 0 := by
    simp [calculateForceAndDirection, cexShortHistory, forceLoop,
      pairSteps, lastPairsRev, lastWindowCheck]
  have hmom : specMomentumClaim Real.sqrt cexShortHistory := by
    refine ⟨1, ?_, ?_, ?_⟩
    · simp [specBackPairs, specWindow, cexShortHistory, pairSteps]
    · simp only [specBackPairs, specWindow, cexShortHistory, pairSteps]
      norm_num [stepDist, stepDx, stepDy, real_sqrt_400]
    · simp only [specBackPairs, specWindow, cexShortHistory, pairSteps]
      norm_num [stepDt]
  have href : refForceClaim Real.sqrt cexShortHistory = 2 := by
    rw [refForceClaim, if_pos hmom]
    simp only [specWindow, cexShortHistory, pairSteps]
    norm_num [stepSpeed, stepDt, stepDist, stepDx, stepDy, real_sqrt_400]
  rw [hcode, href]
  norm_num

/-- Claim C4, amended: the force returned at release equals the
reference definition with the code's two off-by-one windows: the planar
speeds of every consecutive pair of the last up-to-10 samples EXCEPT
the final pair are summed and clamped at 7, and the result is forced to
0 unless, walking backward through the consecutive pairs of the last
`min(10, n - 1)` samples, accumulated displacement exceeds 10 px while
accumulated time stays under 100 ms. -/
theorem C4_force_equals_amended_reference (sqrt : α → α)
    (atan2deg : α → α → α) (ps : List (SwipePos α)) :
    (calculateForceAndDirection sqrt atan2deg ps).1 =
      refForceAmended sqrt ps := by
  by_cases h : lastWindowCheck sqrt 0 0 (lastPairsRev ps) = true
  · have hmom : amendedMomentum sqrt ps := by
      have := (lastWindowCheck_iff sqrt (lastPairsRev ps) 0 0).mp h
      simpa [amendedMomentum] using this
    rw [calculateForceAndDirection, refForceAmended, if_pos hmom]
    simp only [h, if_true, specWindow, forceLoop_fst]
  · have hmom : ¬ amendedMomentum sqrt ps := by
      intro hx
      exact h ((lastWindowCheck_iff sqrt (lastPairsRev ps) 0 0).mpr
        (by simpa [amendedMomentum] using hx))
    rw [calculateForceAndDirection, refForceAmended, if_neg hmom]
    simp only [h, if_false, Bool.false_eq_true]
    exact min_eq_left (by norm_num)

/-- Helper: compute `jsRound` from two linear bounds. -/
theorem jsRound_eq {n : ℤ} {x : α} (h1 : (n : α) ≤ x + 1/2)
    (h2 : x + 1/2 < n + 1) : jsRound x = n := by
  rw [jsRound]
  exact Int.floor_eq_iff.mpr ⟨h1, h2⟩

/-- The modelled `Math.atan2` always lands in `(-π, π]`. -/
theorem jsAtan2_mem_Ioc (y x : ℝ) :
    -Real.pi < jsAtan2 y x ∧ jsAtan2 y x ≤ Real.pi := by
  have hpi := Real.pi_pos
  obtain ⟨hlo, hhi⟩ := Real.arctan_mem_Ioo (y / x)
  rw [jsAtan2]
  split_ifs with hx hx2 hy hy2 hy3
  · exact ⟨by linarith, by linarith⟩
  · have hyx : y / x ≤ 0 := div_nonpos_iff.mpr (Or.inl ⟨hy, hx2.le⟩)
    have harc : Real.arctan (y / x) ≤ 0 := by
      have := Real.arctan_strictMono.monotone hyx
      rwa [Real.arctan_zero] at this
    exact ⟨by linarith, by linarith⟩
  · have hyx : 0 < y / x := div_pos_of_neg_of_neg (by linarith) hx2
    have harc : 0 < Real.arctan (y / x) := by
      have := Real.arctan_strictMono hyx
      rwa [Real.arctan_zero] at this
    exact ⟨by linarith, by linarith⟩
  · exact ⟨by linarith, by linarith⟩
  · exact ⟨by linarith, by linarith⟩
  · exact ⟨by linarith, by linarith⟩

/-- The degree-valued `Math.atan2` composition lands in `(-180, 180]`. -/
theorem jsAtan2Deg_mem (y x : ℝ) :
    -180 < jsAtan2Deg y x ∧ jsAtan2Deg y x ≤ 180 := by
  obtain ⟨h1, h2⟩ := jsAtan2_mem_Ioc y x
  have hpi := Real.pi_pos
  have hfac : (0 : ℝ) < 180 / Real.pi := by positivity
  rw [jsAtan2Deg]
  constructor
  · have := mul_lt_mul_of_pos_right h1 hfac
    rw [show -Real.pi * (180 / Real.pi) = -180 by
      rw [neg_mul, mul_comm, div_mul_cancel₀]
      exact Real.pi_ne_zero] at this
    exact this
  · have := mul_le_mul_of_nonneg_right h2 hfac.le
    rw [show Real.pi * (180 / Real.pi) = 180 by
      rw [mul_comm, div_mul_cancel₀]
      exact Real.pi_ne_zero] at this
    exact this

/-- The direction angle of `calculateForceAndDirection`, extracted. -/
theorem calculateForceAndDirection_snd (sqrt : α → α)
    (atan2deg : α → α → α) (ps : List (SwipePos α)) :
    (calculateForceAndDirection sqrt atan2deg ps).2 =
      (jsRound (atan2deg
        (forceLoop sqrt (pairSteps ((ps.drop (ps.length - 10)).dropLast))).2.2
        (forceLoop sqrt (pairSteps ((ps.drop (ps.length - 10)).dropLast))).2.1
        / 15) : α) * 15 := by
  simp [calculateForceAndDirection]

/-- Claim C5, amended: the direction angle returned at release is always
an integer multiple of 15 and lies in the closed interval
`[-180, 180]` (the endpoint `-180` is attainable, so the claim's
half-open interval `(-180, 180]` is corrected to the closed one). -/
theorem C5_direction_angle_quantized (ps : List (SwipePos ℝ)) :
    (∃ k : ℤ,
      (calculateForceAndDirection Real.sqrt jsAtan2Deg ps).2 = 15 * k) ∧
    -180 ≤ (calculateForceAndDirection Real.sqrt jsAtan2Deg ps).2 ∧
    (calculateForceAndDirection Real.sqrt jsAtan2Deg ps).2 ≤ 180 := by
  rw [calculateForceAndDirection_snd]
  set t2 := (forceLoop Real.sqrt
    (pairSteps ((ps.drop (ps.length - 10)).dropLast))).2.2
  set t1 := (forceLoop Real.sqrt
    (pairSteps ((ps.drop (ps.length - 10)).dropLast))).2.1
  obtain ⟨ha1, ha2⟩ := jsAtan2Deg_mem t2 t1
  set a := jsAtan2Deg t2 t1
  have hlow : (-12 : ℤ) ≤ jsRound (a / 15) := by
    rw [jsRound]
    apply Int.le_floor.mpr
    push_cast
    linarith
  have hhigh : jsRound (a / 15) ≤ 12 := by
    rw [jsRound]
    have h13 : ⌊a / 15 + 1/2⌋ < 13 := by
      apply Int.floor_lt.mpr
      push_cast
      linarith
    omega
  refine ⟨⟨jsRound (a / 15), by ring⟩, ?_, ?_⟩
  · have : ((-12 : ℤ) : ℝ) ≤ (jsRound (a / 15) : ℝ) := Int.cast_le.mpr hlow
    push_cast at this
    linarith
  · have : ((jsRound (a / 15) : ℤ) : ℝ) ≤ ((12 : ℤ) : ℝ) :=
      Int.cast_le.mpr hhigh
    push_cast at this
    linarith

/-- A small arctangent is below `π / 24`. -/
theorem arctan_milli_lt_pi_div_24 : Real.arctan (1/1000) < Real.pi / 24 := by
  have hp3 := Real.pi_gt_three
  have h1 : (1 : ℝ)/1000 < Real.pi / 24 := by nlinarith
  have h2 : Real.pi / 24 < Real.tan (Real.pi / 24) :=
    Real.lt_tan (by positivity) (by nlinarith)
  have h3 := Real.arctan_strictMono (lt_trans h1 h2)
  rwa [Real.arctan_tan (by nlinarith) (by nlinarith)] at h3

/-- A three-sample history whose trailing displacement points just
below the negative x-axis: `atan2` returns almost `-π`. -/
def cexAngleHistory : List (SwipePos ℝ) :=
  [{ x := 0, y := 0, timeStamp := 0 },
   { x := -1000, y := -1, timeStamp := 10 },
   { x := 0, y := 0, timeStamp := 20 }]

/-- Claim C5, counterexample: on a history with summed displacements
`(dx, dy) = (-1000, -1)`, the release angle `atan2(-1, -1000) · 180/π ≈
-179.94°` rounds to `-180`, which is outside the claim's interval
`(-180, 180]`. -/
theorem C5_direction_angle_counterexample :
    (calculateForceAndDirection Real.sqrt jsAtan2Deg cexAngleHistory).2
      = -180 ∧
    ¬ (-180 <
      (calculateForceAndDirection Real.sqrt jsAtan2Deg cexAngleHistory).2) := by
  have hproj : (forceLoop Real.sqrt
      (pairSteps ((cexAngleHistory.drop
        (cexAngleHistory.length - 10)).dropLast))).2 = (-1000, -1) := by
    norm_num [cexAngleHistory, forceLoop, pairSteps, stepDx, stepDy]
  have hangle :
      jsAtan2Deg (-1) (-1000) =
        Real.arctan (1/1000) * (180 / Real.pi) - 180 := by
    rw [jsAtan2Deg, jsAtan2, if_neg (by norm_num), if_pos (by norm_num),
      if_neg (by norm_num)]
    rw [show ((-1 : ℝ)) / (-1000) = 1/1000 by norm_num]
    rw [sub_mul, mul_comm Real.pi, div_mul_cancel₀]
    exact Real.pi_ne_zero
  have hpi := Real.pi_pos
  have harc0 : 0 ≤ Real.arctan (1/1000) := by
    have := Real.arctan_strictMono.monotone (by norm_num : (0:ℝ) ≤ 1/1000)
    rwa [Real.arctan_zero] at this
  have harcdeg : Real.arctan (1/1000) * (180 / Real.pi) < 15/2 := by
    have hfac : (0 : ℝ) < 180 / Real.pi := by positivity
    have := mul_lt_mul_of_pos_right arctan_milli_lt_pi_div_24 hfac
    rw [show Real.pi / 24 * (180 / Real.pi) = 15/2 by
      rw [div_mul_div_comm, mul_comm]
      rw [mul_div_mul_right _ _ Real.pi_ne_zero]
      norm_num] at this
    exact this
  have harcdeg0 : 0 ≤ Real.arctan (1/1000) * (180 / Real.pi) := by positivity
  have hval :
      (calculateForceAndDirection Real.sqrt jsAtan2Deg cexAngleHistory).2
        = -180 := by
    rw [calculateForceAndDirection_snd]
    rw [show (forceLoop Real.sqrt
      (pairSteps ((cexAngleHistory.drop
        (cexAngleHistory.length - 10)).dropLast))).2.2 = -1 by
        rw [hproj]]
    rw [show (forceLoop Real.sqrt
      (pairSteps ((cexAngleHistory.drop
        (cexAngleHistory.length - 10)).dropLast))).2.1 = -1000 by
        rw [hproj]]
    rw [hangle]
    have hround :
        jsRound ((Real.arctan (1/1000) * (180 / Real.pi) - 180) / 15)
          = -12 := by
      apply jsRound_eq
      · push_cast
        linarith
      · push_cast
        linarith
    rw [hround]
    push_cast
    norm_num
  exact ⟨hval, by rw [hval]; norm_num⟩

/-- A pan-end environment with the content well inside the viewport:
500 × 500 viewer, 400 × 400 content at position (50, 50), bounds
enforcement on. -/
def cexEnv : ViewerEnv ℝ :=
  { isInBounds := true, viewerRect := { width := 500, height := 500 },
    targetRect := { width := 400, height := 400 }, prevX := 50, prevY := 50 }

/-- Gesture state after a press at (0, 0), a fast move 100 px to the
right, and a fast move back to the origin. -/
noncomputable def cexSwipeState : SwipeState ℝ :=
  (handleMove DirectionType.horizontal
    (handleMove DirectionType.horizontal
      (handleStart (initialSwipeState : SwipeState ℝ)
        { x := 0, y := 0, timeStamp := 0 }).1
      { x := 100, y := 0, timeStamp := 40 }).1
    { x := 0, y := 0, timeStamp := 80 }).1

/-- The release sample of the out-and-back gesture: back at the origin,
1 ms after the last move. -/
def cexEndSample : SwipePos ℝ := { x := 0, y := 0, timeStamp := 81 }

/-- The out-and-back gesture state, evaluated. -/
theorem cexSwipeState_eval :
    cexSwipeState =
      { isSwiping := true,
        matrix :=
          { startX := 0, startY := 0, startTimeStamp := 0, distanceX := 0,
            distanceY := 0, direction := SwipeDirection.none,
            acceleration := 0,
            positions :=
              [{ x := 0, y := 0, timeStamp := 0 },
               { x := 100, y := 0, timeStamp := 40 },
               { x := 0, y := 0, timeStamp := 80 }],
            force := 0, directionAngle := 0 } } := by
  norm_num [cexSwipeState, handleMove, handleStart, initialSwipeState,
    initialSwiperMatrix, getDirection]

/-- The force of the out-and-back history: two 100 px legs at 2.5 px/ms
each, summing to 5, with genuine terminal momentum. -/
theorem cexForce_eval :
    (calculateForceAndDirection Real.sqrt jsAtan2Deg
      [({ x := 0, y := 0, timeStamp := 0 } : SwipePos ℝ),
       { x := 100, y := 0, timeStamp := 40 },
       { x := 0, y := 0, timeStamp := 80 },
       { x := 0, y := 0, timeStamp := 81 }]).1 = 5 := by
  rw [calculateForceAndDirection]
  norm_num [forceLoop, pairSteps, lastPairsRev, lastWindowCheck, stepSpeed,
    stepDist, stepDt, stepDx, stepDy, real_sqrt_10000]

/-- The bounds resolver keeps the (50, 50) candidate untouched in the
counterexample environment. -/
theorem cexBounds_eval :
    getNextPosition true ({ width := 500, height := 500 } : Rect ℝ)
      { width := 400, height := 400 } 50 50 30 1 =
      { nextX := 50, nextY := 50, isOverBounds := false } := by
  norm_num [getNextPosition, axisClamp]

/-- Claim C1, counterexample: the out-and-back gesture releases with
distance 0 along the horizontal axis (below the 30 px threshold), yet
its computed force is 5 and the end position is in bounds, so the
release pipeline applies momentum: `useGesture.onEnd` forwards the
matrix to `onPanEnd` discarding the `overThreshold` flag, and
`onPanEnd` gates momentum only on force and bounds. -/
theorem C1_threshold_counterexample :
    |(handleEnd DirectionType.horizontal 30 Real.sqrt jsAtan2Deg
        cexSwipeState cexEndSample).2.1.distanceX| ≤ 30 ∧
    appliesMomentum (releaseGesture DirectionType.horizontal 30 Real.sqrt
        jsAtan2Deg cexEnv cexSwipeState cexEndSample) = true := by
  have hforceP : (handleEnd DirectionType.horizontal 30 Real.sqrt jsAtan2Deg
      cexSwipeState cexEndSample).2.1.force = 5 := by
    rw [cexSwipeState_eval]
    norm_num [handleEnd, cexEndSample, cexForce_eval]
  constructor
  · rw [cexSwipeState_eval]
    norm_num [handleEnd, cexEndSample]
  · rw [releaseGesture, onPanEnd]
    simp only [cexEnv]
    rw [cexBounds_eval]
    rw [if_neg]
    · simp [appliesMomentum]
    · simp only [hforceP]
      norm_num

/-- Claim C1, amended: releasing a gesture applies momentum exactly when
the computed force is nonzero and the bounds resolver reports the
current position as in bounds; the threshold does not gate momentum (it
only selects the `overThreshold` flag and the `acceleration` update in
the sampler, and `useGesture.onEnd` discards that flag before
`onPanEnd` runs). -/
theorem C1_momentum_iff_force_and_bounds (directionType : DirectionType)
    (threshold : α) (sqrt : α → α) (atan2deg : α → α → α)
    (env : ViewerEnv α) (st : SwipeState α) (e : SwipePos α) :
    appliesMomentum
        (releaseGesture directionType threshold sqrt atan2deg env st e)
      = true ↔
      ((calculateForceAndDirection sqrt atan2deg
          (st.matrix.positions ++ [e])).1 ≠ 0 ∧
        (getNextPosition env.isInBounds env.viewerRect env.targetRect
          env.prevX env.prevY 30 1).isOverBounds = false) := by
  by_cases hf : (calculateForceAndDirection sqrt atan2deg
    (st.matrix.positions ++ [e])).1 = 0
  · simp only [releaseGesture, handleEnd, onPanEnd]
    split_ifs
    all_goals simp_all [appliesMomentum]
  · cases hb : (getNextPosition env.isInBounds env.viewerRect
      env.targetRect env.prevX env.prevY 30 1).isOverBounds
    all_goals
      simp only [releaseGesture, handleEnd, onPanEnd]
    all_goals
      split_ifs
    all_goals simp_all [appliesMomentum]

/-- Claim C2, amended: the momentum continuation performs at most one
translation step (the source's rescheduling is commented out, so the
model is that single step), multiplies the force by 0.95, and invokes
the completion callback with the element's final position exactly when
the bounds resolver reports the candidate position as out of bounds or
the decayed force is at most 0.3; when the decayed force stays above
0.3 in bounds, NO callback is invoked. -/
theorem C2_momentum_step_behaviour (env : ViewerEnv α)
    (cosDir sinDir initialForce prevScale prevX prevY : α) :
    (moveElementAfterPanEndStep env cosDir sinDir initialForce prevScale
        prevX prevY).forceAfter = initialForce * (95/100) ∧
    ((moveElementAfterPanEndStep env cosDir sinDir initialForce prevScale
        prevX prevY).onEndCall = none ∨
      (moveElementAfterPanEndStep env cosDir sinDir initialForce prevScale
        prevX prevY).onEndCall =
        some ((moveElementAfterPanEndStep env cosDir sinDir initialForce
          prevScale prevX prevY).setX,
          (moveElementAfterPanEndStep env cosDir sinDir initialForce
            prevScale prevX prevY).setY)) ∧
    ((moveElementAfterPanEndStep env cosDir sinDir initialForce prevScale
        prevX prevY).onEndCall.isSome = true ↔
      ((getNextPosition env.isInBounds env.viewerRect env.targetRect
          (moveElementAfterPanEndStep env cosDir sinDir initialForce
            prevScale prevX prevY).setX
          (moveElementAfterPanEndStep env cosDir sinDir initialForce
            prevScale prevX prevY).setY
          (max (initialForce * 3) 10) 1).isOverBounds = true ∨
        initialForce * (95/100) ≤ 3/10)) := by
  simp only [moveElementAfterPanEndStep]
  split_ifs with hOver hF
  · refine ⟨rfl, Or.inr rfl, ?_⟩
    simp only [Option.isSome_some, true_iff]
    exact Or.inl hOver
  · refine ⟨rfl, Or.inl rfl, ?_⟩
    simp only [Option.isSome_none, Bool.false_eq_true, false_iff]
    push_neg
    exact ⟨hOver, hF⟩
  · refine ⟨rfl, Or.inr rfl, ?_⟩
    simp only [Option.isSome_some, true_iff]
    exact Or.inr (le_of_not_lt hF)

/-- Claim C2, counterexample to "always ends by invoking the completion
callback": a throw at angle 0 with force 1 from the in-bounds position
(50, 50) translates by 3 px, stays in bounds, decays the force to 0.95
(above 0.3), and invokes no completion callback at all. -/
theorem C2_no_callback_counterexample :
    (moveElementAfterPanEndStep cexEnv (Real.cos (0 * Real.pi / 180))
      (Real.sin (0 * Real.pi / 180)) 1 1 50 50).onEndCall = none := by
  have hc : Real.cos (0 * Real.pi / 180) = 1 := by norm_num
  have hs : Real.sin (0 * Real.pi / 180) = 0 := by norm_num
  rw [hc, hs]
  have hr : jsRound ((1 : ℝ) * (3/10)) = 0 :=
    jsRound_eq (by norm_num) (by norm_num)
  have hnp : getNextPosition true ({ width := 500, height := 500 } : Rect ℝ)
      { width := 400, height := 400 } 53 50 10 1 =
      { nextX := 53, nextY := 50, isOverBounds := false } := by
    norm_num [getNextPosition, axisClamp]
  rw [moveElementAfterPanEndStep]
  simp only [cexEnv, hr]
  norm_num
  rw [hnp]
  simp

/-- Claim C3, amended: the fit-on-init scale compares the content
aspect ratio to the viewport aspect ratio and selects the width ratio
exactly when the content is strictly relatively wider; for 2:1 content,
a 1:1 viewport selects width-based scaling, and a 1:2
(width : height) viewport ALSO selects width-based scaling, since the
content ratio 2 exceeds the viewport ratio 1/2 (height-based scaling is
selected only when the content ratio is at most the viewport ratio). -/
theorem C3_fit_scale_selection :
    (∀ (viewerRect targetRect : Rect α),
      (viewerRect.width / viewerRect.height <
          targetRect.width / targetRect.height →
        initFitScale viewerRect targetRect =
          viewerRect.width / targetRect.width) ∧
      (targetRect.width / targetRect.height ≤
          viewerRect.width / viewerRect.height →
        initFitScale viewerRect targetRect =
          viewerRect.height / targetRect.height)) ∧
    initFitScale ({ width := 100, height := 100 } : Rect α)
      { width := 200, height := 100 } = 100/200 ∧
    initFitScale ({ width := 100, height := 200 } : Rect α)
      { width := 200, height := 100 } = 100/200 := by
  refine ⟨fun vr tr => ⟨fun h => ?_, fun h => ?_⟩, ?_, ?_⟩
  · rw [initFitScale, if_pos h]
  · rw [initFitScale, if_neg (not_lt.mpr h)]
  · norm_num [initFitScale]
  · norm_num [initFitScale]

/-- Claim C3, counterexample: for 2:1 content (200 × 100) in a 1:2
viewport (100 × 200), the code selects the width ratio 1/2, not the
claimed height ratio 200/100 = 2. -/
theorem C3_one_to_two_viewport_counterexample :
    initFitScale ({ width := 100, height := 200 } : Rect ℚ)
      { width := 200, height := 100 } = 100/200 ∧
    ¬ (initFitScale ({ width := 100, height := 200 } : Rect ℚ)
      { width := 200, height := 100 } = 200/100) := by
  norm_num [initFitScale]

/-- For content strictly smaller than the viewport along an axis, the
per-axis clamp lands in `[0, viewerExtent - targetExtent]` and keeps an
already in-range candidate unchanged. -/
theorem axisClamp_small {viewerExtent targetExtent : α}
    (inBoundsOffset candidate : α) (h : targetExtent < viewerExtent) :
    (0 ≤ (axisClamp viewerExtent targetExtent inBoundsOffset candidate).1 ∧
      (axisClamp viewerExtent targetExtent inBoundsOffset candidate).1 +
        targetExtent ≤ viewerExtent) ∧
    (0 ≤ candidate ∧ candidate + targetExtent ≤ viewerExtent →
      (axisClamp viewerExtent targetExtent inBoundsOffset candidate).1 =
        candidate) := by
  rw [axisClamp, if_neg (not_le.mpr h)]
  by_cases hc0 : candidate < 0
  · rw [if_pos hc0]
    rw [if_neg (by simp; linarith)]
    refine ⟨⟨le_refl 0, by simp; linarith⟩, fun hin => ?_⟩
    exact absurd hin.1 (not_le.mpr hc0)
  · rw [if_neg hc0]
    by_cases hv : viewerExtent < candidate + targetExtent
    · rw [if_pos hv]
      refine ⟨⟨by simp; linarith, by simp⟩, fun hin => ?_⟩
      exact absurd hv (not_lt.mpr hin.2)
    · rw [if_neg hv]
      exact ⟨⟨not_lt.mp hc0, not_lt.mp hv⟩, fun _ => rfl⟩

/-- Whenever the per-axis clamp changes the candidate, it raises its
flag. -/
theorem axisClamp_flag {viewerExtent targetExtent inBoundsOffset
    candidate : α}
    (h : (axisClamp viewerExtent targetExtent inBoundsOffset candidate).1 ≠
      candidate) :
    (axisClamp viewerExtent targetExtent inBoundsOffset candidate).2 =
      true := by
  rw [axisClamp] at h ⊢
  split_ifs at h ⊢ <;> simp_all <;> split_ifs at h ⊢ <;> simp_all

/-- In the large-content branch, a candidate failing both edge checks is
left unchanged by the per-axis clamp. -/
theorem axisClamp_over_id {viewerExtent targetExtent inBoundsOffset
    candidate : α}
    (hoe : viewerExtent ≤ targetExtent) (h1 : ¬(inBoundsOffset < candidate))
    (h2 : ¬(candidate + targetExtent < viewerExtent - inBoundsOffset)) :
    (axisClamp viewerExtent targetExtent inBoundsOffset candidate).1 =
      candidate := by
  rw [axisClamp, if_pos hoe, if_neg h2, if_neg h1]

/-- The bounds resolver in the branch where the scaled content does not
meet or exceed the viewport on both axes. -/
theorem getNextPosition_else (viewerRect targetRect : Rect α)
    (x y inBoundsOffset zoomRatio : α)
    (hcomb : ¬(viewerRect.width ≤ targetRect.width * zoomRatio ∧
      viewerRect.height ≤ targetRect.height * zoomRatio)) :
    getNextPosition true viewerRect targetRect x y inBoundsOffset
        zoomRatio =
      { nextX := (axisClamp viewerRect.width
          (targetRect.width * zoomRatio) inBoundsOffset x).1,
        nextY := (axisClamp viewerRect.height
          (targetRect.height * zoomRatio) inBoundsOffset y).1,
        isOverBounds := (axisClamp viewerRect.width
          (targetRect.width * zoomRatio) inBoundsOffset x).2 ||
          (axisClamp viewerRect.height
            (targetRect.height * zoomRatio) inBoundsOffset y).2 } := by
  rw [getNextPosition]
  simp only [if_true]
  rw [if_neg hcomb]

/-- The bounds resolver in the branch where the scaled content meets or
exceeds the viewport on both axes. -/
theorem getNextPosition_combined (viewerRect targetRect : Rect α)
    (x y inBoundsOffset zoomRatio : α)
    (hcomb : viewerRect.width ≤ targetRect.width * zoomRatio ∧
      viewerRect.height ≤ targetRect.height * zoomRatio) :
    getNextPosition true viewerRect targetRect x y inBoundsOffset
        zoomRatio =
      { nextX :=
          if inBoundsOffset < x then 0
          else if x + targetRect.width * zoomRatio <
              viewerRect.width - inBoundsOffset then
            viewerRect.width - targetRect.width * zoomRatio
          else (axisClamp viewerRect.width (targetRect.width * zoomRatio)
            inBoundsOffset x).1,
        nextY :=
          if inBoundsOffset < y then 0
          else if y + targetRect.height * zoomRatio <
              viewerRect.height - inBoundsOffset then
            viewerRect.height - targetRect.height * zoomRatio
          else (axisClamp viewerRect.height (targetRect.height * zoomRatio)
            inBoundsOffset y).1,
        isOverBounds :=
          decide (inBoundsOffset < x) ||
          decide (x + targetRect.width * zoomRatio <
            viewerRect.width - inBoundsOffset) ||
          decide (inBoundsOffset < y) ||
          decide (y + targetRect.height * zoomRatio <
            viewerRect.height - inBoundsOffset) } := by
  rw [getNextPosition]
  simp only [if_true]
  rw [if_pos hcomb]

/-- Claim C6: with bounds enforcement enabled and the scaled content
strictly smaller than the viewport along an axis, the corrected value
for that axis lies in `[0, viewportExtent - contentExtent]`, equals the
candidate whenever the candidate is already in range, and any change to
either coordinate sets the `isOverBounds` flag. -/
theorem C6_small_content_clamp (isInBounds : Bool)
    (viewerRect targetRect : Rect α) (x y inBoundsOffset zoomRatio : α)
    (hIn : isInBounds = true) :
    (targetRect.width * zoomRatio < viewerRect.width →
      (0 ≤ (getNextPosition isInBounds viewerRect targetRect x y
          inBoundsOffset zoomRatio).nextX ∧
        (getNextPosition isInBounds viewerRect targetRect x y
          inBoundsOffset zoomRatio).nextX +
          targetRect.width * zoomRatio ≤ viewerRect.width) ∧
      (0 ≤ x ∧ x + targetRect.width * zoomRatio ≤ viewerRect.width →
        (getNextPosition isInBounds viewerRect targetRect x y
          inBoundsOffset zoomRatio).nextX = x)) ∧
    (targetRect.height * zoomRatio < viewerRect.height →
      (0 ≤ (getNextPosition isInBounds viewerRect targetRect x y
          inBoundsOffset zoomRatio).nextY ∧
        (getNextPosition isInBounds viewerRect targetRect x y
          inBoundsOffset zoomRatio).nextY +
          targetRect.height * zoomRatio ≤ viewerRect.height) ∧
      (0 ≤ y ∧ y + targetRect.height * zoomRatio ≤ viewerRect.height →
        (getNextPosition isInBounds viewerRect targetRect x y
          inBoundsOffset zoomRatio).nextY = y)) ∧
    (((getNextPosition isInBounds viewerRect targetRect x y
          inBoundsOffset zoomRatio).nextX ≠ x ∨
      (getNextPosition isInBounds viewerRect targetRect x y
          inBoundsOffset zoomRatio).nextY ≠ y) →
      (getNextPosition isInBounds viewerRect targetRect x y
          inBoundsOffset zoomRatio).isOverBounds = true) := by
  subst hIn
  by_cases hcomb : viewerRect.width ≤ targetRect.width * zoomRatio ∧
      viewerRect.height ≤ targetRect.height * zoomRatio
  · refine ⟨fun hw => absurd hcomb.1 (not_le.mpr hw),
      fun hh => absurd hcomb.2 (not_le.mpr hh), fun hne => ?_⟩
    rw [getNextPosition_combined viewerRect targetRect x y inBoundsOffset
      zoomRatio hcomb] at hne ⊢
    by_cases d1 : inBoundsOffset < x
    · simp [d1]
    · by_cases d2 : x + targetRect.width * zoomRatio <
          viewerRect.width - inBoundsOffset
      · simp [d1, d2]
      · by_cases d3 : inBoundsOffset < y
        · simp [d3]
        · by_cases d4 : y + targetRect.height * zoomRatio <
              viewerRect.height - inBoundsOffset
          · simp [d4]
          · exfalso
            simp only [if_neg d1, if_neg d2, if_neg d3, if_neg d4,
              axisClamp_over_id hcomb.1 d1 d2,
              axisClamp_over_id hcomb.2 d3 d4] at hne
            rcases hne with hx | hy
            · exact hx rfl
            · exact hy rfl
  · rw [getNextPosition_else viewerRect targetRect x y inBoundsOffset
      zoomRatio hcomb]
    refine ⟨fun hw => ?_, fun hh => ?_, fun hne => ?_⟩
    · exact axisClamp_small inBoundsOffset x hw
    · exact axisClamp_small inBoundsOffset y hh
    · rcases hne with hx | hy
      · simp [axisClamp_flag hx]
      · simp [axisClamp_flag hy]

/-- Claim C6, witness: 50 × 50 content in a 100 × 100 viewport with the
candidate (-5, 20): the bounds resolver's guarantees hold at this
concrete input. -/
theorem C6_small_content_clamp_witness :
    (((50 : ℚ) * 1 < 100 →
      (0 ≤ (getNextPosition true ({ width := 100, height := 100 } : Rect ℚ)
          { width := 50, height := 50 } (-5) 20 0 1).nextX ∧
        (getNextPosition true ({ width := 100, height := 100 } : Rect ℚ)
          { width := 50, height := 50 } (-5) 20 0 1).nextX +
          (50 : ℚ) * 1 ≤ 100) ∧
      (0 ≤ (-5 : ℚ) ∧ (-5 : ℚ) + 50 * 1 ≤ 100 →
        (getNextPosition true ({ width := 100, height := 100 } : Rect ℚ)
          { width := 50, height := 50 } (-5) 20 0 1).nextX = -5)) ∧
    ((50 : ℚ) * 1 < 100 →
      (0 ≤ (getNextPosition true ({ width := 100, height := 100 } : Rect ℚ)
          { width := 50, height := 50 } (-5) 20 0 1).nextY ∧
        (getNextPosition true ({ width := 100, height := 100 } : Rect ℚ)
          { width := 50, height := 50 } (-5) 20 0 1).nextY +
          (50 : ℚ) * 1 ≤ 100) ∧
      (0 ≤ (20 : ℚ) ∧ (20 : ℚ) + 50 * 1 ≤ 100 →
        (getNextPosition true ({ width := 100, height := 100 } : Rect ℚ)
          { width := 50, height := 50 } (-5) 20 0 1).nextY = 20)) ∧
    (((getNextPosition true ({ width := 100, height := 100 } : Rect ℚ)
          { width := 50, height := 50 } (-5) 20 0 1).nextX ≠ -5 ∨
      (getNextPosition true ({ width := 100, height := 100 } : Rect ℚ)
          { width := 50, height := 50 } (-5) 20 0 1).nextY ≠ 20) →
      (getNextPosition true ({ width := 100, height := 100 } : Rect ℚ)
          { width := 50, height := 50 } (-5) 20 0 1).isOverBounds =
        true)) :=
  C6_small_content_clamp true ({ width := 100, height := 100 } : Rect ℚ)
    { width := 50, height := 50 } (-5) 20 0 1 rfl

/-- `Number(x.toFixed(2))` is the identity on nonnegative exact
hundredths. -/
theorem jsToFixed2_intCast_div (k : ℤ) (hk : 0 ≤ k) :
    jsToFixed2 ((k : α) / 100) = (k : α) / 100 := by
  have hnonneg : (0 : α) ≤ (k : α) / 100 := by positivity
  rw [jsToFixed2, if_neg (not_lt.mpr hnonneg)]
  rw [div_mul_cancel₀ (k : α) (by norm_num : (100 : α) ≠ 0)]
  have hjk : jsRound ((k : α)) = k :=
    jsRound_eq (by linarith) (by linarith)
  rw [hjk]

/-- `Number(x.toFixed(2))` stays at or above one half for inputs at or
above one half. -/
theorem jsToFixed2_ge_half {x : α} (hx : (1 : α)/2 ≤ x) :
    (1 : α)/2 ≤ jsToFixed2 x := by
  rw [jsToFixed2, if_neg (not_lt.mpr (by linarith))]
  have h50 : (50 : ℤ) ≤ jsRound (x * 100) := by
    rw [jsRound]
    apply Int.le_floor.mpr
    push_cast
    linarith
  have : ((50 : ℤ) : α) ≤ (jsRound (x * 100) : α) := Int.cast_le.mpr h50
  push_cast at this
  linarith

/-- One `zoomIn` step from the ratio `1 + n/2`. -/
theorem zoom_in_step (n : ℕ) :
    (zoom ((1:α)/2) (1/2) true (1 + (n : α)/2)).1 = 1 + ((n : α) + 1)/2 := by
  rw [zoom]
  simp only [if_true]
  have hn : (0 : α) ≤ (n : α) := Nat.cast_nonneg n
  rw [max_eq_left (by linarith)]
  have hv : (1 : α) + (n : α)/2 + 1/2 * 1 =
      ((150 + 50 * (n : ℤ) : ℤ) : α) / 100 := by
    push_cast
    ring
  rw [hv, jsToFixed2_intCast_div _ (by positivity)]
  push_cast
  ring

/-- Iterated `zoomIn` from `1 + k/2` adds one half per call. -/
theorem zoomInIter_closed_form (n : ℕ) :
    ∀ k : ℕ, zoomInIter ((1:α)/2) (1/2) n (1 + (k : α)/2) =
      1 + ((k : α) + (n : α))/2 := by
  induction n with
  | zero =>
      intro k
      simp [zoomInIter]
  | succ m ih =>
      intro k
      rw [zoomInIter, zoom_in_step k]
      have : (1 : α) + ((k : α) + 1)/2 = 1 + ((k + 1 : ℕ) : α)/2 := by
        push_cast
        ring
      rw [this, ih (k + 1)]
      push_cast
      ring

/-- Claim C7: with `initialZoomRatio = 1`, `step = 0.5` and floor `0.5`,
the ratio after `n` successive `zoomIn` calls is `1 + n/2` (so the
sequence runs 1.5, 2.0, 2.5, ...); `zoomOut` from 1 gives 0.5; `zoomOut`
at the floor 0.5 gives 0.5 again; and every call stores the stepped
value clamped at the floor and rounded to two decimals, broadcasting it
as `{zoomRatio, prevZoomRatio}`. -/
theorem C7_zoom_ratio_sequence :
    (∀ n : ℕ, zoomInIter ((1:α)/2) (1/2) n 1 = 1 + (n : α)/2) ∧
    (zoom ((1:α)/2) (1/2) false 1).1 = 1/2 ∧
    (zoom ((1:α)/2) (1/2) false (1/2)).1 = 1/2 ∧
    (∀ (dirIn : Bool) (r : α),
      zoom ((1:α)/2) (1/2) dirIn r =
        (jsToFixed2 (max (r + 1/2 * (if dirIn then 1 else -1)) (1/2)),
          [⟨jsToFixed2 (max (r + 1/2 * (if dirIn then 1 else -1)) (1/2)),
            r⟩])) := by
  refine ⟨fun n => ?_, ?_, ?_, fun dirIn r => rfl⟩
  · have h := @zoomInIter_closed_form α _ _ n 0
    simpa using h
  · rw [zoom]
    have hif : (if false = true then (1:α) else -1) = -1 := by norm_num
    rw [hif]
    rw [show (1 : α) + 1/2 * (-1) = 1/2 by ring, max_self]
    rw [show ((1:α)/2) = ((50 : ℤ) : α)/100 by push_cast; ring]
    rw [jsToFixed2_intCast_div _ (by norm_num)]
  · rw [zoom]
    have hif : (if false = true then (1:α) else -1) = -1 := by norm_num
    rw [hif]
    rw [show (1 : α)/2 + 1/2 * (-1) = 0 by ring]
    rw [max_eq_right (by norm_num)]
    rw [show ((1:α)/2) = ((50 : ℤ) : α)/100 by push_cast; ring]
    rw [jsToFixed2_intCast_div _ (by norm_num)]

/-- Claim C8: whenever a tick of `animateTransform` animates the scale,
the value written to the element is at least the configured floor
`MIN_ZOOM_RATIO = 0.5`, whatever the requested target scale, the
progress, and the previous transform are (so the settled scale, the
tick at progress 1, is also at least the floor). -/
theorem C8_scale_floor (target : AnimateTarget α)
    (duration elapsedTime prevScale prevX prevY s : α)
    (hs : target.scale = some s) :
    ∃ w, (animateTransformTick target duration elapsedTime prevScale
        prevX prevY).scale = some w ∧ minScaleFloor ≤ w := by
  simp only [animateTransformTick, hs]
  refine ⟨_, rfl, ?_⟩
  rw [minScaleFloor]
  apply jsToFixed2_ge_half
  have := le_max_right
    (prevScale + (s - prevScale) *
      (if duration = 0 then 1 else min (elapsedTime / duration) 1))
    (minScaleFloor : α)
  rw [minScaleFloor] at this
  exact this

/-- Claim C8, witness: requesting the scale 1/10 (below the floor) with
progress 1 writes the floor value 0.5. -/
theorem C8_scale_floor_witness :
    ∃ w, (animateTransformTick
        ({ scale := some (1/10), position := none } : AnimateTarget ℚ)
        150 150 1 0 0).scale = some w ∧ minScaleFloor ≤ w :=
  C8_scale_floor ({ scale := some (1/10), position := none } :
    AnimateTarget ℚ) 150 150 1 0 0 (1/10) rfl

/-- Claim C9: a move sample delivered while no gesture is active is
silently ignored: the state (hence the motion record) is unchanged and
the move callback is not invoked.  Moreover no gesture is active
initially (before any start) and no gesture is active after any
`handleEnd`, so both "move before start" and "move after end" are
covered. -/
theorem C9_move_without_active_gesture_ignored :
    (∀ (directionType : DirectionType) (st : SwipeState α)
      (e : SwipePos α), st.isSwiping = false →
        handleMove directionType st e = (st, none)) ∧
    (initialSwipeState : SwipeState α).isSwiping = false ∧
    (∀ (directionType : DirectionType) (threshold : α) (sqrt : α → α)
      (atan2deg : α → α → α) (st : SwipeState α) (e : SwipePos α),
      ((handleEnd directionType threshold sqrt atan2deg st e).1).isSwiping
        = false) := by
  refine ⟨fun dt st e h => ?_, rfl, fun dt th sqrt a2 st e => ?_⟩
  · rw [handleMove, if_pos h]
  · simp only [handleEnd]
    split_ifs <;> rfl

/-- Claim C10: `setZoomRatio` stores exactly its argument (no clamping
to the floor, no rounding) and dispatches no zoom event, and a
subsequent `getZoomRatio` returns that exact value, even below the
configured floor. -/
theorem C10_setZoomRatio_stores_exactly (zoomRatio prevZoomRatio : α) :
    getZoomRatio (setZoomRatio zoomRatio prevZoomRatio).1 = zoomRatio ∧
    (setZoomRatio zoomRatio prevZoomRatio).2 = [] :=
  ⟨rfl, rfl⟩

end ReactZoomViewer
